import Mathlib

/-!
Verification of the Aqua Sentinel dashboard's algorithmic core: the seeded
tide/water-level data generator (components/Tides.tsx, components/Detector.tsx),
the pan/zoom transform engine of the Indonesia map widget
(components/IndonesiaMap.tsx), the alert-trigger derivation, the localStorage
alert loading effect, and the service worker's cache-first fetch strategy
(service-worker.js).

JavaScript numbers are modelled as exact rationals (ℚ); the `NaN` values that
arise from `charCodeAt` on out-of-range indices are modelled with `Option`
(`none` = NaN/undefined).  `Math.sin` (a transcendental, used only inside the
`past24h` history array, whose numeric content no property inspects) is kept as
an explicit function parameter `sine`, and the per-sample `Math.random()` noise
of `past24h` as a parameter `noise`.
-/

namespace AquaSentinel

/-! ## Data model and seeded generator (Tides.tsx, Detector.tsx, types.ts) -/

/-- Calendar fields of a JavaScript `Date` as read by the generators:
`getDate()` (day of month), `getMonth()` (0-based month), `getFullYear()`. -/
structure DateT where
  day : Nat
  month : Nat
  year : Nat
deriving DecidableEq, Repr

/-- JS `s.charCodeAt(i)`: the code of the i-th character, `none` for NaN when
the index is out of range. -/
def charCodeAt (s : String) (i : Nat) : Option Nat :=
  (s.data.get? i).map Char.toNat

/-- JS `s.charCodeAt(1) || 0`: the second character code, with NaN (missing)
and 0 both collapsing to 0. -/
def charCode1OrZero (s : String) : Nat :=
  (charCodeAt s 1).getD 0

/-- The seed of `generateTideDataForDate` (Tides.tsx line 517):
`date.getDate() + date.getMonth() * 31 + city.charCodeAt(0) + (city.charCodeAt(1) || 0)`.
`none` models the NaN seed produced by `charCodeAt(0)` on the empty string. -/
def seedOf (city : String) (date : DateT) : Option Nat :=
  (charCodeAt city 0).map fun c0 =>
    date.day + date.month * 31 + c0 + charCode1OrZero city

/-- The seed of `generateBaseWaterLevel` (Detector.tsx line 13), which also
adds `date.getFullYear()`. -/
def waterSeedOf (city : String) (date : DateT) : Option Nat :=
  (charCodeAt city 0).map fun c0 =>
    date.day + date.month * 31 + date.year + c0 + charCode1OrZero city

/-- `generateBaseWaterLevel` (Detector.tsx): `10 + (seed % 81)`. -/
def generateBaseWaterLevel (city : String) (date : DateT) : Option Nat :=
  (waterSeedOf city date).map fun seed => 10 + seed % 81

/-- The four tide statuses of `TideData['status']` (types.ts). -/
inductive TideStatus where
  | Rising
  | Falling
  | High
  | Low
deriving DecidableEq, Repr

/-- `statusOptions` from `generateTideDataForDate`. -/
def statusOptions : List TideStatus :=
  [TideStatus.Rising, TideStatus.Falling, TideStatus.High, TideStatus.Low]

/-- `parseFloat(x.toFixed(1))`: round to one decimal place (ties toward the
larger value, as `toFixed` specifies). -/
def roundTenths (q : ℚ) : ℚ := (⌊q * 10 + 1/2⌋ : ℤ) / 10

/-- The tide record of types.ts.  `none` fields model the NaN / undefined /
"NaN:NaN" values that a NaN seed propagates into; the time fields carry
(hour, minute) pairs rather than their zero-padded `HH:MM` rendering. -/
structure TideData where
  city : String
  status : Option TideStatus
  height : Option ℚ
  nextHigh : Option (Nat × Nat)
  nextLow : Option (Nat × Nat)
  monthlyAvgHigh : Option ℚ
  monthlyAvgLow : Option ℚ
  past24h : Option (List ℚ)
deriving DecidableEq, Repr

/-- `generateTideDataForDate` (Tides.tsx lines 515-545).  `sine i p` stands
for `Math.sin(((i + p) / 24) * 2 * Math.PI - Math.PI / 2)` and `noise i` for
the i-th `(Math.random() - 0.5) * 0.2` draw; both feed only `past24h`. -/
def generateTideDataForDate (sine : Nat → Nat → ℚ) (noise : Nat → ℚ)
    (city : String) (date : DateT) : TideData :=
  match seedOf city date with
  | none => ⟨city, none, none, none, none, none, none, none⟩
  | some seed =>
    let status := statusOptions.get? (seed % 4)
    let height := roundTenths ((8 : ℚ) / 10 + (((seed * 17) % 18 : ℕ) : ℚ) / 10)
    let nextHighHour := (seed * 7) % 12 + 12
    let nextHighMin := (seed * 13) % 60
    let nextLowHour := (seed * 3) % 10 + 1
    let nextLowMin := (seed * 19) % 60
    let monthlyAvgHigh := roundTenths ((2 : ℚ) + (((seed * 5) % 8 : ℕ) : ℚ) / 10)
    let monthlyAvgLow := roundTenths ((4 : ℚ) / 10 + (((seed * 3) % 5 : ℕ) : ℚ) / 10)
    let past24h := (List.range 24).map fun i =>
      let base := (monthlyAvgLow + monthlyAvgHigh) / 2
      let amplitude := (monthlyAvgHigh - monthlyAvgLow) / 2
      let value := base + sine i (seed % 24) * amplitude + noise i
      roundTenths (max (1/10) value)
    ⟨city, status, some height, some (nextHighHour, nextHighMin),
      some (nextLowHour, nextLowMin), some monthlyAvgHigh, some monthlyAvgLow,
      some past24h⟩

/-! ## Pan/zoom transform engine (components/IndonesiaMap.tsx) -/

/-- The SVG element's bounding client rect, fixed for a run of the widget. -/
structure Rect where
  left : ℚ
  top : ℚ
  width : ℚ
  height : ℚ
deriving DecidableEq, Repr

/-- The widget state: the `transform` React state plus the panning flag and
the `startPointRef` anchor. -/
structure MapState where
  scale : ℚ
  x : ℚ
  y : ℚ
  isPanning : Bool
  startX : ℚ
  startY : ℚ
deriving DecidableEq, Repr

/-- Initial state of the widget: `{ scale: 1, x: 0, y: 0 }`, not panning. -/
def initMapState : MapState := ⟨1, 0, 0, false, 0, 0⟩

/-- `clamp(value, min, max) = Math.max(min, Math.min(max, value))`. -/
def clamp (value mn mx : ℚ) : ℚ := max mn (min mx value)

def MIN_SCALE : ℚ := 1
def MAX_SCALE : ℚ := 5

/-- `handleWheel` (IndonesiaMap.tsx lines 135-165): zoom factor 1.1 or 1/1.1
by wheel direction, scale clamped to [1,5], early return when the clamped
scale is unchanged, zoom-to-point translate then clamped to the pan bounds. -/
def handleWheel (rect : Rect) (s : MapState) (deltaY clientX clientY : ℚ) :
    MapState :=
  let zoomFactor : ℚ := if deltaY < 0 then 11/10 else 10/11
  let newScale := clamp (s.scale * zoomFactor) MIN_SCALE MAX_SCALE
  if newScale = s.scale then s
  else
    let mouseX := clientX - rect.left
    let mouseY := clientY - rect.top
    let svgPointX := (mouseX - s.x) / s.scale
    let svgPointY := (mouseY - s.y) / s.scale
    let newX := mouseX - svgPointX * newScale
    let newY := mouseY - svgPointY * newScale
    let boundXMin := min 0 (rect.width - 1000 * newScale)
    let boundYMin := min 0 (rect.height - 500 * newScale)
    { s with scale := newScale, x := clamp newX boundXMin 0,
             y := clamp newY boundYMin 0 }

/-- `handleMouseDown`: start panning and record the anchor point. -/
def handleMouseDown (s : MapState) (clientX clientY : ℚ) : MapState :=
  { s with isPanning := true, startX := clientX - s.x, startY := clientY - s.y }

/-- `handleMouseMove` (lines 176-192): while panning, translate follows the
pointer relative to the anchor, clamped to the pan bounds. -/
def handleMouseMove (rect : Rect) (s : MapState) (clientX clientY : ℚ) :
    MapState :=
  if s.isPanning then
    let newX := clientX - s.startX
    let newY := clientY - s.startY
    let boundXMin := min 0 (rect.width - 1000 * s.scale)
    let boundYMin := min 0 (rect.height - 500 * s.scale)
    { s with x := clamp newX boundXMin 0, y := clamp newY boundYMin 0 }
  else s

/-- `handleMouseUpOrLeave`: stop panning. -/
def handleMouseUpOrLeave (s : MapState) : MapState :=
  { s with isPanning := false }

/-- The pointer/wheel events the widget handles. -/
inductive MapEvent where
  | wheel (deltaY clientX clientY : ℚ)
  | down (clientX clientY : ℚ)
  | move (clientX clientY : ℚ)
  | up
deriving DecidableEq, Repr

/-- One step of the widget's event handling. -/
def mapStep (rect : Rect) (s : MapState) (e : MapEvent) : MapState :=
  match e with
  | MapEvent.wheel deltaY clientX clientY => handleWheel rect s deltaY clientX clientY
  | MapEvent.down clientX clientY => handleMouseDown s clientX clientY
  | MapEvent.move clientX clientY => handleMouseMove rect s clientX clientY
  | MapEvent.up => handleMouseUpOrLeave s

/-- Running the widget from the initial state over a list of events. -/
def runMap (rect : Rect) (events : List MapEvent) : MapState :=
  events.foldl (mapStep rect) initMapState

/-- The view-transform invariant: scale in [1,5] and each translate axis in
[min(0, viewportSize − contentSize × scale), 0] (content is 1000 × 500). -/
def MapInv (rect : Rect) (s : MapState) : Prop :=
  MIN_SCALE ≤ s.scale ∧ s.scale ≤ MAX_SCALE ∧
  min 0 (rect.width - 1000 * s.scale) ≤ s.x ∧ s.x ≤ 0 ∧
  min 0 (rect.height - 500 * s.scale) ≤ s.y ∧ s.y ≤ 0

/-- A 1000 × 500 viewport, as when the SVG is displayed at its natural size. -/
def rectC4 : Rect := ⟨0, 0, 1000, 500⟩

/-- A state at maximal zoom, panned to the far right edge; it satisfies the
view-transform invariant (x = −4000 = min(0, 1000 − 1000·5)). -/
def stateC4 : MapState := ⟨5, -4000, 0, false, 0, 0⟩

/-! ## Alert trigger derivation (Tides.tsx lines 815-817) and persistence -/

/-- Per-city alert configuration entry (types.ts `TideAlert`). -/
structure TideAlert where
  enabled : Bool
  level : ℚ
deriving DecidableEq, Repr

/-- `const isAlertTriggered = alertConfig?.enabled && data.height >= alertConfig.level`:
missing configuration and a disabled alert are falsy; a NaN height (`none`)
compares false against any level. -/
def isAlertTriggered (alertConfig : Option TideAlert) (height : Option ℚ) : Bool :=
  match alertConfig, height with
  | none, _ => false
  | some _, none => false
  | some a, some h => a.enabled && decide (a.level ≤ h)

/-- The alert configuration map (types.ts `TideAlertConfig`), as an
association list keyed by city name; the initial state is `[]` (JS `{}`). -/
def TideAlertConfig : Type := List (String × TideAlert)

/-- The localStorage load effect (Tides.tsx lines 740-749): read the
`tideAlerts` key; `if (storedAlerts)` tests JS truthiness, so both a missing
key (`null`) and a stored empty string skip the parse; otherwise `JSON.parse`
the string and adopt the result; a parse exception is caught, logged via
`console.error`, and leaves the initial empty configuration.  `parse`
abstracts `JSON.parse`; the second component collects the console.error log
entries. -/
def loadTideAlerts (stored : Option String)
    (parse : String → Except String TideAlertConfig) :
    TideAlertConfig × List String :=
  match stored with
  | none => ([], [])
  | some s =>
    if s = "" then ([], [])
    else
      match parse s with
      | Except.ok cfg => (cfg, [])
      | Except.error _ => ([], ["Failed to parse tide alerts from localStorage"])

/-! ## Service worker cache-first fetch strategy (service-worker.js) -/

/-- Requests are identified by an abstract key; cache matching is exact. -/
abbrev Request := Nat

/-- The `type` of a JS `Response`; `opq` models the 'opaque' type of
cross-origin no-cors responses. -/
inductive RespType where
  | basic
  | cors
  | opq
  | other
deriving DecidableEq, Repr

/-- A JS `Response` as far as the service worker inspects it: its status, its
type, and an abstract body. -/
structure Response where
  status : Nat
  rtype : RespType
  body : Nat
deriving DecidableEq, Repr

/-- The named cache's contents as an association list. -/
def Cache : Type := List (Request × Response)

/-- `caches.match(request)`: exact-match lookup. -/
def cachesMatch (cache : Cache) (req : Request) : Option Response :=
  (cache.find? (fun entry => entry.1 == req)).map Prod.snd

/-- The outcome of `fetch(event.request)`: a resolved response or a
rejection (network failure). -/
inductive NetResult where
  | ok (r : Response)
  | err
deriving DecidableEq, Repr

/-- The observable outcome of one intercepted fetch: the response handed to
`event.respondWith` (possibly none), the cache contents afterwards, and
whether the network was consulted. -/
structure FetchOutcome where
  returned : Option Response
  cache : Cache
  networkUsed : Bool

/-- The fetch event listener (service-worker.js lines 57-91): cache-first; on
a miss fetch from the network, and cache a clone when the response has status
200 or is opaque, always returning the network response; if the fetch
rejects, fall back to a cache match. -/
def handleFetch (cache : Cache) (net : NetResult) (req : Request) :
    FetchOutcome :=
  match cachesMatch cache req with
  | some cachedResponse => ⟨some cachedResponse, cache, false⟩
  | none =>
    match net with
    | NetResult.ok networkResponse =>
      if networkResponse.status ≠ 200 ∧ networkResponse.rtype ≠ RespType.opq then
        ⟨some networkResponse, cache, true⟩
      else
        ⟨some networkResponse, (req, networkResponse) :: cache, true⟩
    | NetResult.err => ⟨cachesMatch cache req, cache, true⟩

/-! ## Helper lemmas -/

/-- A nonempty string's character list starts with its first character. -/
theorem exists_cons_of_ne_empty (city : String) (hcity : city ≠ "") :
    ∃ c rest, city.data = c :: rest := by
  cases hd : city.data with
  | nil => exact absurd (String.ext (hd.trans rfl)) hcity
  | cons c rest => exact ⟨c, rest, rfl⟩

/-- On a nonempty city the seed is the stated sum. -/
theorem seedOf_cons (date : DateT) (c : Char) (rest : List Char) :
    seedOf (String.mk (c :: rest)) date =
      some (date.day + date.month * 31 + c.toNat + ((rest.head?.map Char.toNat).getD 0)) := by
  simp [seedOf, charCodeAt, charCode1OrZero]
  cases rest <;> simp

/-- `seedOf` computed from the character decomposition of the city string. -/
theorem seedOf_eq_some_of_data (city : String) (date : DateT) (c : Char)
    (rest : List Char) (hdata : city.data = c :: rest) :
    seedOf city date =
      some (date.day + date.month * 31 + c.toNat + ((rest.head?.map Char.toNat).getD 0)) := by
  cases city with
  | mk data =>
    simp only [String.data] at hdata
    subst hdata
    exact seedOf_cons date c rest

/-- Rounding to tenths is the identity on exact multiples of one tenth. -/
theorem roundTenths_natCast_div (n : ℕ) : roundTenths ((n : ℚ) / 10) = (n : ℚ) / 10 := by
  unfold roundTenths
  have h1 : ((n : ℚ) / 10) * 10 = (n : ℚ) := by ring
  rw [h1]
  have h2 : ⌊(n : ℚ) + 1/2⌋ = (n : ℤ) := by
    rw [Int.floor_eq_iff]
    constructor
    · push_cast; linarith
    · push_cast; linarith
  rw [h2]
  norm_num

theorem clamp_le (value mn mx : ℚ) (h : mn ≤ mx) : clamp value mn mx ≤ mx :=
  max_le h (min_le_left _ _)

theorem le_clamp (value mn mx : ℚ) : mn ≤ clamp value mn mx :=
  le_max_left _ _

/-- If a value already lies between the bounds, clamping does nothing. -/
theorem clamp_eq_self (value mn mx : ℚ) (h1 : mn ≤ value) (h2 : value ≤ mx) :
    clamp value mn mx = value := by
  unfold clamp
  rw [min_eq_right h2, max_eq_right h1]

theorem mapInv_init (rect : Rect) : MapInv rect initMapState := by
  refine ⟨le_refl _, by norm_num [initMapState, MIN_SCALE, MAX_SCALE], ?_, ?_, ?_, ?_⟩ <;>
    simp [initMapState, min_le_iff]

theorem mapInv_step (rect : Rect) (s : MapState) (e : MapEvent)
    (h : MapInv rect s) : MapInv rect (mapStep rect s e) := by
  obtain ⟨h1, h2, h3, h4, h5, h6⟩ := h
  have hsc : MIN_SCALE ≤ MAX_SCALE := by norm_num [MIN_SCALE, MAX_SCALE]
  cases e with
  | wheel deltaY clientX clientY =>
    simp only [mapStep, handleWheel]
    split_ifs <;>
      first
      | exact ⟨h1, h2, h3, h4, h5, h6⟩
      | exact ⟨le_clamp _ _ _, clamp_le _ _ _ hsc,
          le_clamp _ _ _, clamp_le _ _ _ (min_le_left _ _),
          le_clamp _ _ _, clamp_le _ _ _ (min_le_left _ _)⟩
  | down clientX clientY => exact ⟨h1, h2, h3, h4, h5, h6⟩
  | move clientX clientY =>
    simp only [mapStep, handleMouseMove]
    split_ifs
    · exact ⟨h1, h2, le_clamp _ _ _, clamp_le _ _ _ (min_le_left _ _),
        le_clamp _ _ _, clamp_le _ _ _ (min_le_left _ _)⟩
    · exact ⟨h1, h2, h3, h4, h5, h6⟩
  | up => exact ⟨h1, h2, h3, h4, h5, h6⟩

theorem mapInv_foldl (rect : Rect) (events : List MapEvent) (s : MapState)
    (h : MapInv rect s) : MapInv rect (events.foldl (mapStep rect) s) := by
  induction events generalizing s with
  | nil => exact h
  | cons e es ih => exact ih _ (mapInv_step rect s e h)

/-- Inserting an entry at the front of the cache makes it the exact match. -/
theorem cachesMatch_cons_self (cache : Cache) (req : Request) (r : Response) :
    cachesMatch ((req, r) :: cache) req = some r := by
  simp [cachesMatch, List.find?]

/-! ## Claim theorems -/

/-- C1: for every nonempty location string and every date,
`generateTideDataForDate` returns a record whose status is defined and drawn
from the four-element status list, and whose height lies in [0.8, 2.5]. -/
theorem generate_status_height_range (sine : Nat → Nat → ℚ) (noise : Nat → ℚ)
    (city : String) (date : DateT) (hcity : city ≠ "") :
    (∃ st, (generateTideDataForDate sine noise city date).status = some st ∧
        st ∈ statusOptions) ∧
    ∃ ht, (generateTideDataForDate sine noise city date).height = some ht ∧
        4/5 ≤ ht ∧ ht ≤ 5/2 := by
  obtain ⟨c, rest, hdata⟩ := exists_cons_of_ne_empty city hcity
  have hseed := seedOf_eq_some_of_data city date c rest hdata
  set seed := date.day + date.month * 31 + c.toNat +
    ((rest.head?.map Char.toNat).getD 0) with hs
  have hst : (generateTideDataForDate sine noise city date).status =
      statusOptions.get? (seed % 4) := by
    simp [generateTideDataForDate, hseed]
  have hht : (generateTideDataForDate sine noise city date).height =
      some (roundTenths ((8 : ℚ) / 10 + (((seed * 17) % 18 : ℕ) : ℚ) / 10)) := by
    simp [generateTideDataForDate, hseed]
  constructor
  · have h4 : seed % 4 = 0 ∨ seed % 4 = 1 ∨ seed % 4 = 2 ∨ seed % 4 = 3 := by omega
    rcases h4 with h4 | h4 | h4 | h4 <;>
      · rw [hst, h4]
        simp [statusOptions]
  · set k := (seed * 17) % 18 with hk
    have hk17 : k ≤ 17 := by
      have := Nat.mod_lt (seed * 17) (show 0 < 18 by norm_num)
      omega
    refine ⟨roundTenths ((8 : ℚ) / 10 + (k : ℚ) / 10), hht, ?_, ?_⟩ <;>
      · have heq : (8 : ℚ) / 10 + (k : ℚ) / 10 = (((8 + k : ℕ) : ℚ)) / 10 := by
          push_cast; ring
        rw [heq, roundTenths_natCast_div]
        have hkq : (k : ℚ) ≤ 17 := by exact_mod_cast hk17
        have hk0 : (0 : ℚ) ≤ (k : ℚ) := by positivity
        push_cast
        linarith

/-- Witness for C1 at city Jakarta. -/
theorem generate_status_height_range_witness :
    ("Jakarta" : String) ≠ "" ∧
    ((∃ st, (generateTideDataForDate (fun _ _ => 0) (fun _ => 0) "Jakarta"
        ⟨5, 3, 2024⟩).status = some st ∧ st ∈ statusOptions) ∧
    ∃ ht, (generateTideDataForDate (fun _ _ => 0) (fun _ => 0) "Jakarta"
        ⟨5, 3, 2024⟩).height = some ht ∧ 4/5 ≤ ht ∧ ht ≤ 5/2) :=
  ⟨by decide,
    generate_status_height_range (fun _ _ => 0) (fun _ => 0) "Jakarta" ⟨5, 3, 2024⟩
      (by decide)⟩

/-- C2: for fixed `sine` (JS `Math.sin` is deterministic) and any two noise
draws, the two generated records agree on every field except `past24h`: same
city, status, height, nextHigh, nextLow and monthly averages. -/
theorem generate_deterministic_modulo_noise (sine : Nat → Nat → ℚ)
    (noise1 noise2 : Nat → ℚ) (city : String) (date : DateT) :
    (generateTideDataForDate sine noise1 city date).city =
      (generateTideDataForDate sine noise2 city date).city ∧
    (generateTideDataForDate sine noise1 city date).status =
      (generateTideDataForDate sine noise2 city date).status ∧
    (generateTideDataForDate sine noise1 city date).height =
      (generateTideDataForDate sine noise2 city date).height ∧
    (generateTideDataForDate sine noise1 city date).nextHigh =
      (generateTideDataForDate sine noise2 city date).nextHigh ∧
    (generateTideDataForDate sine noise1 city date).nextLow =
      (generateTideDataForDate sine noise2 city date).nextLow ∧
    (generateTideDataForDate sine noise1 city date).monthlyAvgHigh =
      (generateTideDataForDate sine noise2 city date).monthlyAvgHigh ∧
    (generateTideDataForDate sine noise1 city date).monthlyAvgLow =
      (generateTideDataForDate sine noise2 city date).monthlyAvgLow := by
  cases h : seedOf city date <;> simp [generateTideDataForDate, h]

/-- C3: after any finite sequence of wheel and pointer events, the view
transform has scale ∈ [1,5] and, on each axis,
translate ∈ [min(0, viewportSize − contentSize × scale), 0]. -/
theorem runMap_invariant (rect : Rect) (events : List MapEvent) :
    MIN_SCALE ≤ (runMap rect events).scale ∧
    (runMap rect events).scale ≤ MAX_SCALE ∧
    min 0 (rect.width - 1000 * (runMap rect events).scale) ≤ (runMap rect events).x ∧
    (runMap rect events).x ≤ 0 ∧
    min 0 (rect.height - 500 * (runMap rect events).scale) ≤ (runMap rect events).y ∧
    (runMap rect events).y ≤ 0 :=
  mapInv_foldl rect events initMapState (mapInv_init rect)

/-- C4 counterexample: zooming out (deltaY = 1) at cursor (0,0) from
`stateC4` gives newScale = 50/11 and the zoom-to-point formula would put the
translate at −40000/11, but the handler's bounds clamping moves it to
−39000/11 instead, so the point under the cursor does not stay fixed. -/
theorem wheel_zoom_to_point_counterexample :
    MapInv rectC4 stateC4 ∧
    clamp (stateC4.scale * (10/11)) MIN_SCALE MAX_SCALE = 50/11 ∧
    (50 : ℚ)/11 ≠ stateC4.scale ∧
    (0 : ℚ) - ((0 - stateC4.x) / stateC4.scale) * (50/11) = -40000/11 ∧
    (handleWheel rectC4 stateC4 1 0 0).x = -39000/11 ∧
    (-39000 : ℚ)/11 ≠ -40000/11 := by
  refine ⟨?_, ?_, ?_, ?_, ?_, ?_⟩ <;>
    norm_num [MapInv, rectC4, stateC4, handleWheel, clamp,
      MIN_SCALE, MAX_SCALE, min_def, max_def]

/-- C4 (amended): for a wheel event that changes the clamped scale, when the
zoom-to-point translate `cursor − contentPoint × newScale` already lies
within the pan bounds on both axes, the handler adopts it exactly (the
content point under the cursor stays fixed); otherwise the handler clamps it
to the bounds. -/
theorem wheel_zoom_to_point (rect : Rect) (s : MapState)
    (deltaY clientX clientY mouseX mouseY newScale : ℚ)
    (hmx : mouseX = clientX - rect.left)
    (hmy : mouseY = clientY - rect.top)
    (hns : newScale =
      clamp (s.scale * (if deltaY < 0 then 11/10 else 10/11)) MIN_SCALE MAX_SCALE)
    (hne : newScale ≠ s.scale)
    (hx1 : min 0 (rect.width - 1000 * newScale) ≤
      mouseX - ((mouseX - s.x) / s.scale) * newScale)
    (hx2 : mouseX - ((mouseX - s.x) / s.scale) * newScale ≤ 0)
    (hy1 : min 0 (rect.height - 500 * newScale) ≤
      mouseY - ((mouseY - s.y) / s.scale) * newScale)
    (hy2 : mouseY - ((mouseY - s.y) / s.scale) * newScale ≤ 0) :
    (handleWheel rect s deltaY clientX clientY).scale = newScale ∧
    (handleWheel rect s deltaY clientX clientY).x =
      mouseX - ((mouseX - s.x) / s.scale) * newScale ∧
    (handleWheel rect s deltaY clientX clientY).y =
      mouseY - ((mouseY - s.y) / s.scale) * newScale := by
  subst hmx hmy hns
  simp only [handleWheel]
  rw [if_neg hne]
  exact ⟨rfl, clamp_eq_self _ _ _ hx1 hx2, clamp_eq_self _ _ _ hy1 hy2⟩

/-- Witness for the amended C4: zooming in at cursor (0,0) from the initial
state of a 1000 × 500 viewport keeps the content origin under the cursor. -/
theorem wheel_zoom_to_point_witness :
    (handleWheel rectC4 initMapState (-1) 0 0).scale = 11/10 ∧
    (handleWheel rectC4 initMapState (-1) 0 0).x = 0 ∧
    (handleWheel rectC4 initMapState (-1) 0 0).y = 0 := by
  have h := wheel_zoom_to_point rectC4 initMapState (-1) 0 0 0 0 (11/10)
    (by norm_num [rectC4]) (by norm_num [rectC4])
    (by norm_num [clamp, MIN_SCALE, MAX_SCALE, initMapState, min_def, max_def])
    (by norm_num [initMapState])
    (by norm_num [rectC4, initMapState, min_def])
    (by norm_num [initMapState])
    (by norm_num [rectC4, initMapState, min_def])
    (by norm_num [initMapState])
  refine ⟨h.1, ?_, ?_⟩
  · have hx := h.2.1
    simpa [initMapState] using hx
  · have hy := h.2.2
    simpa [initMapState] using hy

/-- C5: on an intercepted fetch, a cache hit is returned without touching the
network or the cache; on a miss the network is consulted, its response is
always the one returned, it is written to the cache exactly when its status
is 200 or its type is opaque, and a rejected fetch falls back to a cache
match (necessarily none on this path). -/
theorem fetch_cache_first (cache : Cache) (net : NetResult) (req : Request) :
    (∀ r, cachesMatch cache req = some r →
      (handleFetch cache net req).returned = some r ∧
      (handleFetch cache net req).cache = cache ∧
      (handleFetch cache net req).networkUsed = false) ∧
    (cachesMatch cache req = none →
      (handleFetch cache net req).networkUsed = true ∧
      (∀ r, net = NetResult.ok r →
        (handleFetch cache net req).returned = some r ∧
        (cachesMatch (handleFetch cache net req).cache req = some r ↔
          (r.status = 200 ∨ r.rtype = RespType.opq)) ∧
        (¬(r.status = 200 ∨ r.rtype = RespType.opq) →
          (handleFetch cache net req).cache = cache)) ∧
      (net = NetResult.err →
        (handleFetch cache net req).returned = cachesMatch cache req)) := by
  cases hm : cachesMatch cache req with
  | some r0 =>
    refine ⟨?_, ?_⟩
    · intro r hr
      cases hr
      simp [handleFetch, hm]
    · intro hnone
      exact absurd hnone (by simp)
  | none =>
    refine ⟨?_, ?_⟩
    · intro r hr
      exact absurd hr (by simp)
    · intro _
      cases net with
      | err => simp [handleFetch, hm]
      | ok r =>
        by_cases h200 : r.status = 200
        · simp [handleFetch, hm, h200, cachesMatch_cons_self]
        · by_cases hop : r.rtype = RespType.opq
          · simp [handleFetch, hm, h200, hop, cachesMatch_cons_self]
          · simp [handleFetch, hm, h200, hop]

/-- Witness for C5: a cache hit is served without the network, and a miss
with a 200 network response populates the cache. -/
theorem fetch_cache_first_witness :
    cachesMatch [((1 : Nat), (⟨200, RespType.basic, 7⟩ : Response))] (1 : Nat) =
      some ⟨200, RespType.basic, 7⟩ ∧
    (handleFetch [((1 : Nat), (⟨200, RespType.basic, 7⟩ : Response))]
        NetResult.err (1 : Nat)).returned = some ⟨200, RespType.basic, 7⟩ ∧
    (handleFetch [((1 : Nat), (⟨200, RespType.basic, 7⟩ : Response))]
        NetResult.err (1 : Nat)).networkUsed = false :=
  ⟨rfl,
    ((fetch_cache_first [((1 : Nat), ⟨200, RespType.basic, 7⟩)] NetResult.err
        (1 : Nat)).1 ⟨200, RespType.basic, 7⟩ rfl).1,
    ((fetch_cache_first [((1 : Nat), ⟨200, RespType.basic, 7⟩)] NetResult.err
        (1 : Nat)).1 ⟨200, RespType.basic, 7⟩ rfl).2.2⟩

/-- C7: the derived triggered flag is true exactly when the city's alert
configuration exists, is enabled, and the record's height reaches the
configured level; it is false whenever the alert is disabled, regardless of
height. -/
theorem alert_triggered_iff (alertConfig : Option TideAlert) (h : ℚ) :
    (isAlertTriggered alertConfig (some h) = true ↔
      ∃ a, alertConfig = some a ∧ a.enabled = true ∧ a.level ≤ h) ∧
    (∀ a, alertConfig = some a → a.enabled = false →
      isAlertTriggered alertConfig (some h) = false) := by
  constructor
  · cases alertConfig with
    | none => simp [isAlertTriggered]
    | some a => simp [isAlertTriggered]
  · rintro a rfl ha
    simp [isAlertTriggered, ha]

/-- Witness for C7: an enabled alert at level 2 triggers at height 5/2, and
the same alert disabled does not. -/
theorem alert_triggered_witness :
    isAlertTriggered (some ⟨true, 2⟩) (some (5/2)) = true ∧
    isAlertTriggered (some ⟨false, 2⟩) (some (5/2)) = false :=
  ⟨(alert_triggered_iff (some ⟨true, 2⟩) (5/2)).1.mpr
      ⟨⟨true, 2⟩, rfl, rfl, by norm_num⟩,
    (alert_triggered_iff (some ⟨false, 2⟩) (5/2)).2 ⟨false, 2⟩ rfl rfl⟩

/-- C8 counterexample: at the empty location string the generator still
returns an ordinary record — no InvalidArgument or any other error signal —
whose status is undefined (`none`) and whose numeric fields are NaN
(`none`). -/
theorem generate_empty_location_counterexample :
    generateTideDataForDate (fun _ _ => 0) (fun _ => 0) "" ⟨1, 0, 2024⟩ =
      ⟨"", none, none, none, none, none, none, none⟩ := by
  rfl

/-- C8 (amended): the generator is total (never throws) but does not signal a
precondition violation for out-of-range input: for the empty location string
it returns a degenerate record with undefined status and NaN height, while
for every nonempty location all fields of the record are defined. -/
theorem generate_total_no_error_signal (sine : Nat → Nat → ℚ) (noise : Nat → ℚ)
    (city : String) (date : DateT) :
    (city = "" →
      (generateTideDataForDate sine noise city date).status = none ∧
      (generateTideDataForDate sine noise city date).height = none) ∧
    (city ≠ "" →
      (∃ st, (generateTideDataForDate sine noise city date).status = some st) ∧
      (∃ ht, (generateTideDataForDate sine noise city date).height = some ht) ∧
      (∃ nh, (generateTideDataForDate sine noise city date).nextHigh = some nh) ∧
      (∃ nl, (generateTideDataForDate sine noise city date).nextLow = some nl) ∧
      (∃ mh, (generateTideDataForDate sine noise city date).monthlyAvgHigh = some mh) ∧
      (∃ ml, (generateTideDataForDate sine noise city date).monthlyAvgLow = some ml) ∧
      ∃ p, (generateTideDataForDate sine noise city date).past24h = some p) := by
  constructor
  · rintro rfl
    constructor <;> rfl
  · intro hcity
    obtain ⟨c, rest, hdata⟩ := exists_cons_of_ne_empty city hcity
    have hseed := seedOf_eq_some_of_data city date c rest hdata
    set seed := date.day + date.month * 31 + c.toNat +
      ((rest.head?.map Char.toNat).getD 0) with hs
    have hst : (generateTideDataForDate sine noise city date).status =
        statusOptions.get? (seed % 4) := by
      simp [generateTideDataForDate, hseed]
    refine ⟨?_, ?_, ?_, ?_, ?_, ?_, ?_⟩
    · have h4 : seed % 4 = 0 ∨ seed % 4 = 1 ∨ seed % 4 = 2 ∨ seed % 4 = 3 := by omega
      rcases h4 with h4 | h4 | h4 | h4 <;>
        · rw [hst, h4]
          simp [statusOptions]
    all_goals
      simp [generateTideDataForDate, hseed]

/-- Witness for the amended C8 at the empty location string. -/
theorem generate_total_no_error_signal_witness :
    (generateTideDataForDate (fun _ _ => 0) (fun _ => 0) "" ⟨1, 0, 2024⟩).status = none ∧
    (generateTideDataForDate (fun _ _ => 0) (fun _ => 0) "" ⟨1, 0, 2024⟩).height = none :=
  (generate_total_no_error_signal (fun _ _ => 0) (fun _ => 0) "" ⟨1, 0, 2024⟩).1 rfl

/-- C9 counterexample: the stored empty string is unparseable JSON
(`JSON.parse("")` would throw, as the given parse function records), yet the
truthiness guard `if (storedAlerts)` skips the parse, so the loader produces
no log entry at all — the claim's "the failure is logged" fails there (the
configuration is still left empty). -/
theorem load_alerts_empty_string_counterexample :
    (fun _ : String => (Except.error "bad JSON" : Except String TideAlertConfig))
        "" = Except.error "bad JSON" ∧
    loadTideAlerts (some "")
        (fun _ => Except.error "bad JSON") = ([], []) :=
  ⟨rfl, rfl⟩

/-- C9 (amended): when the persisted alert string is nonempty and fails to
parse, the failure is logged, the configuration stays empty, and the loader
returns normally (it is a total function, so no exception propagates); a
stored empty string never reaches the parser — the truthiness guard treats it
as absent without logging. -/
theorem load_alerts_parse_failure (s : String)
    (parse : String → Except String TideAlertConfig) (e : String)
    (hs : s ≠ "") (h : parse s = Except.error e) :
    loadTideAlerts (some s) parse =
      ([], ["Failed to parse tide alerts from localStorage"]) := by
  simp [loadTideAlerts, hs, h]

/-- Witness for C9 with a parse function rejecting a nonempty non-JSON
string. -/
theorem load_alerts_parse_failure_witness :
    ("not json" : String) ≠ "" ∧
    (fun _ : String => (Except.error "bad JSON" : Except String TideAlertConfig))
        "not json" = Except.error "bad JSON" ∧
    loadTideAlerts (some "not json")
        (fun _ => Except.error "bad JSON") =
      ([], ["Failed to parse tide alerts from localStorage"]) :=
  ⟨by decide, rfl, load_alerts_parse_failure "not json"
    (fun _ => Except.error "bad JSON") "bad JSON" (by decide) rfl⟩

/-- C6: the tide seed is day + month×31 + charCode(location[0]) +
charCode(location[1] or 0); the water-level variant additionally adds the
year; a length-1 location treats the missing second character code as 0. -/
theorem seed_formula_and_waterlevel_variant (date : DateT) (c : Char)
    (rest : List Char) :
    seedOf (String.mk (c :: rest)) date =
      some (date.day + date.month * 31 + c.toNat +
        ((rest.head?.map Char.toNat).getD 0)) ∧
    waterSeedOf (String.mk (c :: rest)) date =
      some (date.day + date.month * 31 + date.year + c.toNat +
        ((rest.head?.map Char.toNat).getD 0)) ∧
    seedOf (String.mk [c]) date = some (date.day + date.month * 31 + c.toNat) := by
  refine ⟨seedOf_cons date c rest, ?_, ?_⟩
  · simp [waterSeedOf, charCodeAt, charCode1OrZero]
    cases rest <;> simp
  · simpa using seedOf_cons date c []

/-- C10: a wheel event whose clamped new scale equals the current scale (for
instance zooming in at the maximum scale) leaves the whole state unchanged. -/
theorem wheel_noop_when_scale_unchanged (rect : Rect) (s : MapState)
    (deltaY clientX clientY : ℚ)
    (h : clamp (s.scale * (if deltaY < 0 then 11/10 else 10/11))
      MIN_SCALE MAX_SCALE = s.scale) :
    handleWheel rect s deltaY clientX clientY = s := by
  simp only [handleWheel]
  rw [if_pos h]

/-- Witness for C10: zooming in (deltaY = −1) while already at scale 5. -/
theorem wheel_noop_witness :
    clamp ((5 : ℚ) * (if (-1 : ℚ) < 0 then 11/10 else 10/11))
      MIN_SCALE MAX_SCALE = 5 ∧
    handleWheel rectC4 ⟨5, 0, 0, false, 0, 0⟩ (-1) 0 0 = ⟨5, 0, 0, false, 0, 0⟩ := by
  have hc : clamp ((5 : ℚ) * (if (-1 : ℚ) < 0 then 11/10 else 10/11))
      MIN_SCALE MAX_SCALE = 5 := by
    norm_num [clamp, MIN_SCALE, MAX_SCALE, min_def, max_def]
  exact ⟨hc, wheel_noop_when_scale_unchanged rectC4 ⟨5, 0, 0, false, 0, 0⟩ (-1) 0 0 hc⟩

end AquaSentinel
